import Mathlib

/-!
Verification of the photo-booth application (`EGL314proj.py`): a shallow
embedding of the Google-Drive session manager (`DriveManager`), the
asynchronous upload subsystem (`AsyncUploader`), and the image-file naming
logic of `PhotoBoothPython`, together with theorems settling the spec's
claims about them.

Python exceptions are modelled by the `Res` type (`ok v` = normal return,
`exn` = an exception was raised); the behaviour of the external SDK and of
the remote service is an explicit environment record, so "for every
behaviour of the remote service" becomes universal quantification over the
environment.
-/

namespace PhotoBooth

/-- Outcome of a Python call that may raise: a value, or an exception. -/
inductive Res (α : Type) where
  | ok (v : α) : Res α
  | exn : Res α
deriving DecidableEq, Repr

/-- An authorized `GoogleDrive` handle, opaque to this program. -/
abbrev Handle := Nat

/-- The part of `gauth.credentials` the code inspects: `access_token_expired`. -/
structure Credentials where
  accessTokenExpired : Bool
deriving DecidableEq, Repr

/-- The mutable singleton state of `DriveManager`: `_authenticated` and `_drive`. -/
structure DriveState where
  authenticated : Bool
  drive : Option Handle
deriving DecidableEq, Repr

/-- Behaviour of the provider SDK during `DriveManager._initialize_drive`:
the outcome of each call the method makes (`os.path.exists("mycreds.txt")`,
`LoadCredentialsFile`, the credentials left on `gauth` after a successful
load, `LocalWebserverAuth`, `Refresh`, `Authorize`, `SaveCredentialsFile`,
and the `GoogleDrive(gauth)` construction). -/
structure InitEnv where
  credsFileExists : Bool
  loadCreds : Res Unit
  loadedCreds : Option Credentials
  webAuth : Res Unit
  refreshTok : Res Unit
  authorizeCall : Res Unit
  saveCreds : Res Unit
  mkDrive : Res Handle
deriving DecidableEq, Repr

/-- `gauth.credentials` after the credential-loading block of
`_initialize_drive` (lines 36-43): the inner `try` loads the file when it
exists; a load exception is caught by the inner handler, logged, and
execution continues with no credentials. -/
def credsAfterLoad (env : InitEnv) : Option Credentials :=
  if env.credsFileExists then
    match env.loadCreds with
    | Res.ok _ => env.loadedCreds
    | Res.exn => none
  else none

/-- The authentication step of `_initialize_drive` (lines 47-54):
no credentials → `LocalWebserverAuth`; expired token → `Refresh`;
otherwise → `Authorize`. -/
def authStep (env : InitEnv) : Res Unit :=
  match credsAfterLoad env with
  | none => env.webAuth
  | some c => if c.accessTokenExpired then env.refreshTok else env.authorizeCall

/-- `DriveManager._initialize_drive`: the outer `try` wraps authentication,
`SaveCredentialsFile` and `GoogleDrive(gauth)`; any exception reaching the
outer handler is caught and leaves `_drive = None`, `_authenticated = False`.
On full success `_drive` is the new handle and `_authenticated = True`. -/
def initDrive (env : InitEnv) : DriveState :=
  match authStep env with
  | Res.exn => ⟨false, none⟩
  | Res.ok _ =>
    match env.saveCreds with
    | Res.exn => ⟨false, none⟩
    | Res.ok _ =>
      match env.mkDrive with
      | Res.exn => ⟨false, none⟩
      | Res.ok h => ⟨true, some h⟩

/-- `DriveManager.is_connected`: `self._authenticated and self._drive is not None`. -/
def is_connected (s : DriveState) : Bool :=
  s.authenticated && s.drive.isSome

/-- `DriveManager.get_drive`: reinitializes when not authenticated or the
handle is absent, then returns `self._drive`; also returns the updated
singleton state. -/
def get_drive (s : DriveState) (env : InitEnv) : Option Handle × DriveState :=
  if !s.authenticated || s.drive.isNone then
    let s1 := initDrive env
    (s1.drive, s1)
  else (s.drive, s)

/-- The observable remote steps `AsyncUploader` performs, plus the local
file-existence check (recorded so that the order of the check relative to
the remote calls is visible in a trace). -/
inductive Step where
  | checkExists
  | listFolders
  | createFolder
  | uploadCall
  | insertPermission
deriving DecidableEq, Repr

/-- Behaviour of the local filesystem and of the remote service during one
uploader operation: `os.path.exists` on each path, the result of the
`ListFile(...).GetList()` query for the PhotoBooth folder (the list of ids
it reports), folder creation (`folder.Upload()` then `folder['id']`),
`SetContentFile` (a local read that may raise), the `file.Upload()` call
(given the path and the parent-folder id placed in the metadata),
`InsertPermission`, and the `file['alternateLink']` lookup. -/
structure RemoteEnv where
  fileExists : String → Bool
  listFolders : Res (List String)
  createFolder : Res String
  setContent : String → Res Unit
  uploadCall : String → Option String → Res Unit
  insertPermission : Res Unit
  alternateLink : Res String

/-- `AsyncUploader._get_or_create_folder`: obtain the handle via
`get_drive` (`None` → return `None`); query for an existing `PhotoBooth`
folder and return the first id if the list is non-empty; otherwise create
the folder and return its id; any exception is caught and yields `None`.
Result: ((folder id or `None`, trace of remote calls), updated drive state). -/
def getOrCreateFolder (s : DriveState) (ienv : InitEnv) (renv : RemoteEnv) :
    (Option String × List Step) × DriveState :=
  let gd := get_drive s ienv
  match gd.1 with
  | none => ((none, []), gd.2)
  | some _ =>
    match renv.listFolders with
    | Res.exn => ((none, [Step.listFolders]), gd.2)
    | Res.ok fl =>
      match fl with
      | [] =>
        match renv.createFolder with
        | Res.exn => ((none, [Step.listFolders, Step.createFolder]), gd.2)
        | Res.ok fid => ((some fid, [Step.listFolders, Step.createFolder]), gd.2)
      | fid :: _ => ((some fid, [Step.listFolders]), gd.2)

/-- `AsyncUploader.upload_and_get_link`: obtain the handle (`None` → return
`None`); check `os.path.exists(file_path)` (missing → return `None`); build
the metadata, whose parent id is whatever `_get_or_create_folder` returned
(possibly `None` — its failures are swallowed inside it); `SetContentFile`;
`Upload`; `InsertPermission`; read `file['alternateLink']`. Any exception
reaching the outer handler yields `None`. Result: ((share url or `None`,
trace), updated drive state). -/
def upload_and_get_link (s : DriveState) (ienv : InitEnv) (renv : RemoteEnv)
    (path : String) : (Option String × List Step) × DriveState :=
  let gd := get_drive s ienv
  match gd.1 with
  | none => ((none, []), gd.2)
  | some _ =>
    if renv.fileExists path then
      let fr := getOrCreateFolder gd.2 ienv renv
      match renv.setContent path with
      | Res.exn => ((none, Step.checkExists :: fr.1.2), fr.2)
      | Res.ok _ =>
        match renv.uploadCall path fr.1.1 with
        | Res.exn =>
            ((none, Step.checkExists :: (fr.1.2 ++ [Step.uploadCall])), fr.2)
        | Res.ok _ =>
          match renv.insertPermission with
          | Res.exn =>
              ((none, Step.checkExists ::
                (fr.1.2 ++ [Step.uploadCall, Step.insertPermission])), fr.2)
          | Res.ok _ =>
            match renv.alternateLink with
            | Res.exn =>
                ((none, Step.checkExists ::
                  (fr.1.2 ++ [Step.uploadCall, Step.insertPermission])), fr.2)
            | Res.ok url =>
                ((some url, Step.checkExists ::
                  (fr.1.2 ++ [Step.uploadCall, Step.insertPermission])), fr.2)
    else ((none, [Step.checkExists]), gd.2)

/-- The upload queue's contents, in FIFO order: real items are `some path`,
the poison-pill sentinel is `none`. -/
abbrev UploadQueue := List (Option String)

/-- `AsyncUploader.queue_upload`: if the drive manager is not connected,
log and return without touching the queue; otherwise append the path. -/
def queue_upload (ds : DriveState) (q : UploadQueue) (path : String) : UploadQueue :=
  if is_connected ds then q ++ [some path] else q

/-- `AsyncUploader.stop`: put the `None` poison pill on the queue (the
subsequent `join` waits at most `stopJoinTimeoutSeconds` and never kills
the thread). -/
def stop (q : UploadQueue) : UploadQueue :=
  q ++ [none]

/-- The bounded timeout (seconds) `stop` passes to `upload_thread.join`. -/
def stopJoinTimeoutSeconds : Nat := 5

/-- The timeout (seconds) the worker passes to `upload_queue.get`. -/
def workerGetTimeoutSeconds : Nat := 1

/-- One result of the worker's `upload_queue.get(timeout=1)`: either the
timeout elapsed (`queue.Empty`), or an item was dequeued (a real path, or
the `None` sentinel). -/
inductive QEvent where
  | timeout
  | item (x : Option String)
deriving DecidableEq, Repr

/-- Observable actions of the worker loop: an `_upload_file` call, a
`task_done` signal, or the clean `break`. -/
inductive Action where
  | uploadFile (path : String)
  | taskDone
  | exited
deriving DecidableEq, Repr

/-- `AsyncUploader._upload_worker`, as a trace function over the finite
sequence of dequeue results it observes: a timeout (`queue.Empty`) is
caught and the loop continues; the `None` sentinel breaks out of the loop;
a real path triggers exactly one `_upload_file` call followed by
`task_done` before the next `get`. -/
def uploadWorker : List QEvent → List Action
  | [] => []
  | QEvent.timeout :: rest => uploadWorker rest
  | QEvent.item none :: _ => [Action.exited]
  | QEvent.item (some p) :: rest =>
      Action.uploadFile p :: Action.taskDone :: uploadWorker rest

/-- The paths the worker passed to `_upload_file`, in call order. -/
def uploadedPaths (acts : List Action) : List String :=
  acts.filterMap fun a =>
    match a with
    | Action.uploadFile p => some p
    | _ => none

/-- `PhotoBoothPython.take_photo`: raw capture filename `photo_{img_counter}.png`. -/
def rawPhotoName (counter : Nat) : String :=
  "photo_" ++ toString counter ++ ".png"

/-- The fixed `output_folder` used by `show_cutout` and `save_final_image`. -/
def output_folder : String := "final_images"

/-- A file write the application performs: the directory it targets
(`""` = the process working directory, i.e. a bare relative filename),
whether `os.makedirs(..., exist_ok=True)` is called for that directory
before the write, and the filename. -/
structure SavedFile where
  dir : String
  ensureDirCreated : Bool
  filename : String
deriving DecidableEq, Repr

/-- The raw-capture write in `take_photo`: `cv2.imwrite(fname, frame)` with
the bare relative name `photo_{counter}.png` — no directory, no `makedirs`. -/
def rawCaptureFile (counter : Nat) : SavedFile :=
  ⟨"", false, rawPhotoName counter⟩

/-- The cutout write in `show_cutout`: `makedirs("final_images")` then save
to `os.path.join("final_images", f"photo_{save_session_id}_cutout.png")`. -/
def cutoutFile (sid : Nat) : SavedFile :=
  ⟨output_folder, true, "photo_" ++ toString sid ++ "_cutout.png"⟩

/-- Which of `last_composited` / `last_no_bg` / `last_raw` are present when
`save_final_image` runs. -/
structure PreviewState where
  hasComposited : Bool
  hasNoBg : Bool
  hasRaw : Bool
deriving DecidableEq, Repr

/-- The suffix selection of `save_final_image`: composited image first,
then cutout, then raw; `none` when there is nothing to save. -/
def finalSuffix (p : PreviewState) : Option String :=
  if p.hasComposited then some "_composited"
  else if p.hasNoBg then some "_cutout"
  else if p.hasRaw then some "_raw"
  else none

/-- The write `save_final_image` performs (when it has an image):
`makedirs("final_images")` then save to
`os.path.join("final_images", f"photo_{save_session_id}{suffix}.png")`. -/
def finalImageFile (sid : Nat) (p : PreviewState) : Option SavedFile :=
  (finalSuffix p).map fun sfx =>
    ⟨output_folder, true, "photo_" ++ toString sid ++ sfx ++ ".png"⟩

/-- The counters of `PhotoBoothPython` relevant to file naming. -/
structure BoothState where
  img_counter : Nat
  save_session_id : Nat
deriving DecidableEq, Repr

/-- `take_photo`'s effect on the counters and the raw file it writes:
the raw name uses the current `img_counter`; then `img_counter += 1` and
`save_session_id = img_counter` (the already-incremented value). -/
def take_photo (s : BoothState) : BoothState × SavedFile :=
  let f := rawCaptureFile s.img_counter
  ({ img_counter := s.img_counter + 1, save_session_id := s.img_counter + 1 }, f)

/-- A connected drive-manager state, for concrete instantiations. -/
def connectedDS : DriveState := ⟨true, some 0⟩

/-- An SDK behaviour in which no credentials file exists and every
authentication call raises. -/
def failingInitEnv : InitEnv :=
  ⟨false, Res.ok (), none, Res.exn, Res.exn, Res.exn, Res.exn, Res.exn⟩

/-- An SDK behaviour in which `mycreds.txt` exists but `LoadCredentialsFile`
raises, after which the interactive `LocalWebserverAuth`, the credential
save and the `GoogleDrive` construction all succeed. -/
def loadExnInitEnv : InitEnv :=
  ⟨true, Res.exn, none, Res.ok (), Res.exn, Res.exn, Res.ok (), Res.ok 7⟩

/-- A remote behaviour in which the folder-listing query raises while every
later step of the upload succeeds and the local file exists. -/
def folderExnRemoteEnv : RemoteEnv :=
  { fileExists := fun _ => true
    listFolders := Res.exn
    createFolder := Res.exn
    setContent := fun _ => Res.ok ()
    uploadCall := fun _ _ => Res.ok ()
    insertPermission := Res.ok ()
    alternateLink := Res.ok "https://drive.example/abc" }

/-- A remote behaviour reporting one existing PhotoBooth folder, with every
step succeeding. -/
def existingFolderRemoteEnv : RemoteEnv :=
  { fileExists := fun _ => true
    listFolders := Res.ok ["folder-1"]
    createFolder := Res.ok "folder-2"
    setContent := fun _ => Res.ok ()
    uploadCall := fun _ _ => Res.ok ()
    insertPermission := Res.ok ()
    alternateLink := Res.ok "https://drive.example/abc" }

/-- The same remote behaviour, but no local file exists. -/
def noFileRemoteEnv : RemoteEnv :=
  { existingFolderRemoteEnv with fileExists := fun _ => false }

/-! ## Helper lemmas -/

/-- While connected, enqueuing a list of paths appends them (as `some`) in order. -/
theorem foldl_queue_upload_connected (ds : DriveState) (h : is_connected ds = true) :
    ∀ (paths : List String) (q : UploadQueue),
      paths.foldl (queue_upload ds) q = q ++ paths.map some := by
  intro paths
  induction paths with
  | nil => intro q; simp
  | cons p ps ih =>
      intro q
      simp only [List.foldl_cons, List.map_cons, queue_upload, h, if_true]
      rw [ih]
      simp

/-- A worker fed only real items uploads exactly those paths in order. -/
theorem uploadWorker_all_items (paths : List String) :
    uploadedPaths (uploadWorker (paths.map fun p => QEvent.item (some p))) = paths := by
  induction paths with
  | nil => rfl
  | cons p ps ih =>
      simp only [List.map_cons, uploadWorker, uploadedPaths, List.filterMap_cons]
      simpa [uploadedPaths] using ih

/-- Everything placed on the queue after a sentinel is invisible to the worker. -/
theorem uploadWorker_stops_at_sentinel (q : UploadQueue) (more : UploadQueue) :
    uploadWorker ((q ++ none :: more).map QEvent.item) =
      uploadWorker ((q ++ [none]).map QEvent.item) := by
  induction q with
  | nil => rfl
  | cons x q ih =>
      cases x with
      | none => rfl
      | some p =>
          simp only [List.cons_append, List.map_cons, uploadWorker, List.append_eq]
          rw [ih]

/-! ## Claim theorems -/

/-- Claim C1: for every finite sequence of paths enqueued via `queue_upload`
while the session is connected, the worker calls `_upload_file` on exactly
those paths in FIFO order — the list of upload-call arguments equals the
list of enqueued paths. -/
theorem c1_fifo_order (ds : DriveState) (h : is_connected ds = true)
    (paths : List String) :
    uploadedPaths
      (uploadWorker ((paths.foldl (queue_upload ds) []).map QEvent.item)) = paths := by
  rw [foldl_queue_upload_connected ds h paths []]
  simpa [Function.comp] using uploadWorker_all_items paths

/-- Witness for C1 at a connected state and two concrete paths. -/
theorem c1_fifo_order_witness :
    is_connected ⟨true, some 0⟩ = true ∧
      uploadedPaths
        (uploadWorker (((["a", "b"] : List String).foldl
          (queue_upload ⟨true, some 0⟩) []).map QEvent.item)) = ["a", "b"] :=
  ⟨by decide, c1_fifo_order ⟨true, some 0⟩ (by decide) ["a", "b"]⟩

/-- Claim C2: when `is_connected` is false, `queue_upload` leaves the queue
unchanged — no item is added and the call merely logs and returns. -/
theorem c2_enqueue_disconnected (ds : DriveState) (q : UploadQueue) (path : String)
    (h : is_connected ds = false) :
    queue_upload ds q path = q := by
  simp [queue_upload, h]

/-- Witness for C2: a disconnected state, an empty queue, a concrete path. -/
theorem c2_enqueue_disconnected_witness :
    is_connected ⟨false, none⟩ = false ∧
      queue_upload ⟨false, none⟩ [] "photo_0.png" = [] :=
  ⟨by decide, c2_enqueue_disconnected ⟨false, none⟩ [] "photo_0.png" (by decide)⟩

/-- Claim C4: `stop` enqueues the `None` sentinel (and the join it then
performs uses the bounded 5-second timeout, never a kill), and afterwards
the worker processes nothing placed on the queue after the sentinel: its
action trace is unchanged by any items enqueued after the stop. -/
theorem c4_stop_sentinel (q : UploadQueue) (more : UploadQueue) :
    stop q = q ++ [none] ∧
      stopJoinTimeoutSeconds = 5 ∧
      uploadWorker ((stop q ++ more).map QEvent.item) =
        uploadWorker ((stop q).map QEvent.item) := by
  refine ⟨rfl, rfl, ?_⟩
  have h := uploadWorker_stops_at_sentinel q more
  simpa [stop] using h

/-- Claim C5: in each worker iteration, dequeuing the sentinel makes the
loop exit cleanly; dequeuing a real path performs exactly one upload
attempt and signals `task_done` before the next dequeue; a `queue.Empty`
timeout just re-loops with no action. -/
theorem c5_worker_iteration (p : String) (rest : List QEvent) :
    uploadWorker (QEvent.item none :: rest) = [Action.exited] ∧
      uploadWorker (QEvent.item (some p) :: rest) =
        Action.uploadFile p :: Action.taskDone :: uploadWorker rest ∧
      uploadWorker (QEvent.timeout :: rest) = uploadWorker rest :=
  ⟨rfl, rfl, rfl⟩

/-- Claim C10: a capture whose raw file is `photo_{n}.png` sets
`save_session_id` to `n + 1`, so every derived file for that photo (cutout,
composited, raw-save) is named with index `n + 1`, never `n`. -/
theorem c10_derived_index_offset (s : BoothState) :
    (take_photo s).2.filename = "photo_" ++ toString s.img_counter ++ ".png" ∧
      (take_photo s).1.save_session_id = s.img_counter + 1 ∧
      (cutoutFile (take_photo s).1.save_session_id).filename =
        "photo_" ++ toString (s.img_counter + 1) ++ "_cutout.png" ∧
      finalImageFile (take_photo s).1.save_session_id ⟨true, false, false⟩ =
        some ⟨output_folder, true,
          "photo_" ++ toString (s.img_counter + 1) ++ "_composited" ++ ".png"⟩ ∧
      (take_photo s).1.save_session_id ≠ s.img_counter := by
  refine ⟨rfl, rfl, rfl, rfl, ?_⟩
  simp [take_photo]

/-- Claim C3 counterexample: with the folder-listing query raising and all
later remote steps succeeding, `upload_and_get_link` returns a share URL,
not `None` — a failure inside folder resolution does not make the whole
operation return `None`, contrary to the claim. -/
theorem c3_counterexample :
    folderExnRemoteEnv.listFolders = Res.exn ∧
      (upload_and_get_link connectedDS failingInitEnv folderExnRemoteEnv
        "photo_1_cutout.png").1.1 = some "https://drive.example/abc" :=
  ⟨rfl, rfl⟩

/-- Claim C3 (amended): if obtaining the handle fails, the local file is
missing, or the content-attach, upload, permission or link step raises,
`upload_and_get_link` returns `None` for the whole operation, with no
partial success and no retry; a failure inside folder resolution alone is
swallowed there (the upload proceeds with an absent parent id). -/
theorem c3_step_failure_none (ds : DriveState) (ienv : InitEnv) (renv : RemoteEnv)
    (path : String)
    (h : (get_drive ds ienv).1 = none ∨ renv.fileExists path = false ∨
      renv.setContent path = Res.exn ∨
      renv.uploadCall path
        (getOrCreateFolder (get_drive ds ienv).2 ienv renv).1.1 = Res.exn ∨
      renv.insertPermission = Res.exn ∨ renv.alternateLink = Res.exn) :
    (upload_and_get_link ds ienv renv path).1.1 = none := by
  simp only [upload_and_get_link]
  repeat' split
  all_goals first
    | rfl
    | (rcases h with h | h | h | h | h | h <;> simp_all)

/-- Witness for C3 (amended): the local file is missing, so the result is `None`. -/
theorem c3_step_failure_none_witness :
    noFileRemoteEnv.fileExists "missing.png" = false ∧
      (upload_and_get_link connectedDS failingInitEnv noFileRemoteEnv
        "missing.png").1.1 = none :=
  ⟨rfl, c3_step_failure_none connectedDS failingInitEnv noFileRemoteEnv "missing.png"
    (Or.inr (Or.inl rfl))⟩

/-- Claim C6 counterexample: an SDK exception raised during initialization
(by `LoadCredentialsFile`) after which `is_connected` is `true`, not
`false` — the inner handler swallows the load failure and initialization
continues and succeeds, contrary to the claim. -/
theorem c6_counterexample :
    loadExnInitEnv.loadCreds = Res.exn ∧
      is_connected (initDrive loadExnInitEnv) = true := by
  decide

/-- Claim C6 (amended): exceptions never propagate (`initDrive`,
`get_drive` and `is_connected` always return); any exception in the
authentication step, the credential save, or the `GoogleDrive`
construction leaves the handle absent, `is_connected` false, and
`get_drive` returning no handle; only a failure while loading the cached
credentials file is instead caught by an inner handler, after which
initialization continues without cached credentials. -/
theorem c6_outer_failure_disconnects (env : InitEnv)
    (h : authStep env = Res.exn ∨ env.saveCreds = Res.exn ∨ env.mkDrive = Res.exn) :
    initDrive env = ⟨false, none⟩ ∧
      is_connected (initDrive env) = false ∧
      (get_drive ⟨false, none⟩ env).1 = none := by
  have hinit : initDrive env = ⟨false, none⟩ := by
    unfold initDrive
    rcases h with h | h | h
    · simp [h]
    · cases ha : authStep env <;> simp [h]
    · cases ha : authStep env <;> cases hs : env.saveCreds <;> simp [h]
  refine ⟨hinit, ?_, ?_⟩
  · rw [hinit]; rfl
  · simp [get_drive, hinit]

/-- Witness for C6 (amended): every authentication call raises, and the
resulting state is disconnected. -/
theorem c6_outer_failure_disconnects_witness :
    authStep failingInitEnv = Res.exn ∧
      initDrive failingInitEnv = ⟨false, none⟩ :=
  ⟨by decide, (c6_outer_failure_disconnects failingInitEnv (Or.inl (by decide))).1⟩

/-- Claim C7: when the remote service reports an existing `PhotoBooth`
folder, folder resolution returns that folder's id, the state is left
unchanged so a second consecutive call returns the same id, and no
folder-creation call is issued on either call. -/
theorem c7_folder_resolution_stable (ds : DriveState) (ienv : InitEnv)
    (renv : RemoteEnv) (fid : String) (rest : List String)
    (hc : is_connected ds = true) (hl : renv.listFolders = Res.ok (fid :: rest)) :
    (getOrCreateFolder ds ienv renv).1 = (some fid, [Step.listFolders]) ∧
      (getOrCreateFolder (getOrCreateFolder ds ienv renv).2 ienv renv).1 =
        (some fid, [Step.listFolders]) ∧
      Step.createFolder ∉ (getOrCreateFolder ds ienv renv).1.2 ∧
      Step.createFolder ∉
        (getOrCreateFolder (getOrCreateFolder ds ienv renv).2 ienv renv).1.2 := by
  cases ds with
  | mk a d =>
    simp only [is_connected, Bool.and_eq_true, Option.isSome_iff_exists] at hc
    obtain ⟨ha, hh, hd⟩ := hc
    subst ha hd
    simp [getOrCreateFolder, get_drive, hl]

/-- Witness for C7: a connected state and a service reporting folder `folder-1`. -/
theorem c7_folder_resolution_stable_witness :
    is_connected connectedDS = true ∧
      (getOrCreateFolder connectedDS failingInitEnv existingFolderRemoteEnv).1 =
        (some "folder-1", [Step.listFolders]) :=
  ⟨rfl, (c7_folder_resolution_stable connectedDS failingInitEnv
      existingFolderRemoteEnv "folder-1" [] rfl rfl).1⟩

/-- Claim C8: with a handle established and the local file absent,
`upload_and_get_link` returns `None` without raising, and its trace is
exactly the local existence check — the check runs after the handle is
obtained and no remote upload step is ever issued. -/
theorem c8_missing_file_none (ds : DriveState) (ienv : InitEnv) (renv : RemoteEnv)
    (path : String) (hc : is_connected ds = true)
    (hf : renv.fileExists path = false) :
    (upload_and_get_link ds ienv renv path).1 = (none, [Step.checkExists]) := by
  cases ds with
  | mk a d =>
    simp only [is_connected, Bool.and_eq_true, Option.isSome_iff_exists] at hc
    obtain ⟨ha, hh, hd⟩ := hc
    subst ha hd
    simp [upload_and_get_link, get_drive, hf]

/-- Witness for C8: a connected state and a missing local file. -/
theorem c8_missing_file_none_witness :
    noFileRemoteEnv.fileExists "missing.png" = false ∧
      (upload_and_get_link connectedDS failingInitEnv noFileRemoteEnv
        "missing.png").1 = (none, [Step.checkExists]) :=
  ⟨rfl, c8_missing_file_none connectedDS failingInitEnv noFileRemoteEnv
    "missing.png" rfl rfl⟩

/-- Claim C9 counterexample: the raw capture is written as a bare relative
filename in the process working directory, with no `makedirs` call, while
the cutout goes to the fixed `final_images` directory — so persisted image
files are not all written into one fixed output directory, contrary to the
claim. -/
theorem c9_counterexample :
    (rawCaptureFile 0).dir = "" ∧
      (cutoutFile 1).dir = output_folder ∧
      (rawCaptureFile 0).dir ≠ (cutoutFile 1).dir ∧
      (rawCaptureFile 0).ensureDirCreated = false := by
  decide

/-- Claim C9 (amended): derived images (cutout and final saves) are named
`photo_{sid}` plus a fixed stage suffix, saved as PNG into the fixed
`final_images` directory created on demand; the raw capture is saved as
PNG named `photo_{counter}.png` with no stage suffix, as a bare relative
path in the working directory, with no directory creation. -/
theorem c9_amended_file_layout (counter sid : Nat) (p : PreviewState) (f : SavedFile)
    (hf : finalImageFile sid p = some f) :
    (rawCaptureFile counter).dir = "" ∧
      (rawCaptureFile counter).ensureDirCreated = false ∧
      (rawCaptureFile counter).filename = "photo_" ++ toString counter ++ ".png" ∧
      (cutoutFile sid).dir = output_folder ∧
      (cutoutFile sid).ensureDirCreated = true ∧
      (cutoutFile sid).filename = "photo_" ++ toString sid ++ "_cutout.png" ∧
      f.dir = output_folder ∧ f.ensureDirCreated = true ∧
      (f.filename = "photo_" ++ toString sid ++ "_composited" ++ ".png" ∨
        f.filename = "photo_" ++ toString sid ++ "_cutout" ++ ".png" ∨
        f.filename = "photo_" ++ toString sid ++ "_raw" ++ ".png") := by
  refine ⟨rfl, rfl, rfl, rfl, rfl, rfl, ?_, ?_, ?_⟩
  all_goals
    unfold finalImageFile finalSuffix at hf
    split_ifs at hf <;> simp at hf <;> subst hf <;> simp

/-- Witness for C9 (amended): a composited image saved for session id 1. -/
theorem c9_amended_file_layout_witness :
    finalImageFile 1 ⟨true, false, false⟩ =
        some ⟨"final_images", true, "photo_1_composited.png"⟩ ∧
      (rawCaptureFile 0).dir = "" :=
  ⟨by decide, (c9_amended_file_layout 0 1 ⟨true, false, false⟩
      ⟨"final_images", true, "photo_1_composited.png"⟩ (by decide)).1⟩

end PhotoBooth
